import Mathlib

/-!
Verification of the n8n-nodes-scroll repository: a shallow embedding of its
pure logic (batch status classification, bridge fee arithmetic, gateway data
encoding, gas fee composition, dispatcher call counts, the Scroll node's
execute loop and the Scroll Trigger's poll function), with theorems checking
the natural language specification against it.

Conventions of the embedding:
- JavaScript bigint values that are always non-negative are modelled as Nat;
  bigint division truncates, which on non-negative operands is Nat division.
- JavaScript numbers used as integer indices are modelled as Int (they can go
  negative through subtraction) or Nat where the source guarantees naturals.
- `Option` models nullable values; `Except String` models code that throws.
- JavaScript truthiness of numbers (0 falsy) and strings (empty falsy) is
  modelled explicitly where the source relies on it.
-/

/- ===== utils/proofUtils.ts ===== -/

/-- enum BatchStatus from utils/proofUtils.ts. -/
inductive BatchStatus where
  | pending
  | committed
  | proved
  | finalized
deriving DecidableEq

/-- isBatchFinalized from utils/proofUtils.ts: batchIndex <= lastFinalizedIndex. -/
def isBatchFinalized (batchIndex lastFinalizedIndex : Int) : Bool :=
  batchIndex ≤ lastFinalizedIndex

/-- isBatchCommitted from utils/proofUtils.ts: batchIndex <= lastCommittedIndex. -/
def isBatchCommitted (batchIndex lastCommittedIndex : Int) : Bool :=
  batchIndex ≤ lastCommittedIndex

/-- getBatchStatus from utils/proofUtils.ts. -/
def getBatchStatus (batchIndex lastFinalizedIndex lastCommittedIndex : Int) : BatchStatus :=
  if batchIndex ≤ lastFinalizedIndex then BatchStatus.finalized
  else if batchIndex ≤ lastCommittedIndex then BatchStatus.committed
  else BatchStatus.pending

/-- ethers.ZeroHash: 32 zero bytes as a hex string. -/
def zeroHash : String := "0x" ++ String.mk (List.replicate 64 '0')

/-- The status assignment inside BatchClient.getBatchInfo
(transport/batchClient.ts): finalized if the L1 contract reports the batch
finalized, else committed if the commitment is a non-zero hash, else pending. -/
def getBatchInfoStatus (isFinalized : Bool) (commitment : String) : BatchStatus :=
  if isFinalized then BatchStatus.finalized
  else if commitment ≠ zeroHash then BatchStatus.committed
  else BatchStatus.pending

/-- The status assigned by parseRollupEvent (utils/proofUtils.ts) according to
the eventType argument: committed for a commit event, finalized otherwise. -/
def parseRollupEventStatus (eventType : String) : BatchStatus :=
  if eventType = "commit" then BatchStatus.committed else BatchStatus.finalized

/- ===== bridge utilities (calculateBridgeFee, encode*Data) ===== -/

/-- calculateBridgeFee from the bridge utilities: baseFee = gasLimit * l1GasPrice,
then a 120/100 buffer for deposits and a 150/100 buffer for withdrawals
(bigint division, i.e. floor on non-negative values). -/
def calculateBridgeFee (gasLimit l1GasPrice : Nat) (isDeposit : Bool) : Nat :=
  let baseFee := gasLimit * l1GasPrice
  if isDeposit then baseFee * 120 / 100 else baseFee * 150 / 100

/-- Lower-case hex digit for a value below 16. -/
def hexDigit (n : Nat) : Char :=
  if n < 10 then Char.ofNat (48 + n) else Char.ofNat (87 + n)

/-- Big-endian hex digits of a natural number (empty for 0). -/
def natToHexList : Nat → List Char
  | 0 => []
  | n + 1 => natToHexList ((n + 1) / 16) ++ [hexDigit ((n + 1) % 16)]
decreasing_by exact Nat.div_lt_self (Nat.succ_pos n) (by omega)

/-- One 32-byte ABI word (64 hex characters) holding a numeric value.
This is how ethers' defaultAbiCoder lays out both a uint256 and an address
(the address is its 160-bit numeric value, left-padded with zeros). -/
def abiWord (value : Nat) : String :=
  let digits := natToHexList value
  String.mk (List.replicate (64 - digits.length) '0') ++ String.mk digits

/-- encodeDepositData from the bridge utilities:
abiCoder.encode(type list address, uint256, uint256) applied to
(recipient, amount, gasLimit). The recipient address is modelled by its
numeric value. -/
def encodeDepositData (recipient amount gasLimit : Nat) : String :=
  "0x" ++ abiWord recipient ++ abiWord amount ++ abiWord gasLimit

/-- encodeWithdrawalData from the bridge utilities:
abiCoder.encode(type list address, uint256, uint256) applied to
(recipient, amount, gasLimit). The body in the source is identical to
encodeDepositData. -/
def encodeWithdrawalData (recipient amount gasLimit : Nat) : String :=
  "0x" ++ abiWord recipient ++ abiWord amount ++ abiWord gasLimit

/- ===== gas utilities (estimateGas, getL1DataFee, calculateTotalFee) ===== -/

/-- FeeData from the gas utilities: the three nullable fee fields returned by
provider.getFeeData(). -/
structure FeeData where
  gasPrice : Option Nat
  maxFeePerGas : Option Nat
  maxPriorityFeePerGas : Option Nat

/-- GasEstimate from the gas utilities. -/
structure GasEstimate where
  gasLimit : Nat
  gasPrice : Nat
  maxFeePerGas : Nat
  maxPriorityFeePerGas : Nat
  l1DataFee : Nat
  l2ExecutionFee : Nat
  totalFee : Nat
deriving DecidableEq

/-- JavaScript `x || d` on a nullable bigint: null and 0n are falsy. -/
def jsOrNat (x : Option Nat) (d : Nat) : Nat :=
  match x with
  | some v => if v = 0 then d else v
  | none => d

/-- JavaScript truthiness of a nullable string: null and the empty string are
falsy. -/
def jsTruthyStr (x : Option String) : Bool :=
  match x with
  | some s => !(s == "")
  | none => false

/-- estimateGas from the gas utilities: provider.estimateGas (none models a
provider that throws), with a 20 percent buffer added on success and an error
thrown on failure. -/
def estimateGas (providerEstimate : Option Nat) : Except String Nat :=
  match providerEstimate with
  | some estimate => Except.ok (estimate * 120 / 100)
  | none => Except.error "Gas estimation failed"

/-- getL1DataFee from the gas utilities: the oracle's getL1Fee result, or 0
when the oracle call fails (none). -/
def getL1DataFee (oracleGetL1Fee : Option Nat) : Nat :=
  match oracleGetL1Fee with
  | some fee => fee
  | none => 0

/-- calculateTotalFee from the gas utilities. Inputs are the raw provider
estimate (none = estimateGas throws), the provider fee data, the optional
oracle address and transaction data (presence and truthiness of the source's
`oracleAddress && transaction.data` guard), and the oracle getL1Fee outcome. -/
def calculateTotalFee (providerEstimate : Option Nat) (feeData : FeeData)
    (oracleAddress : Option String) (txData : Option String)
    (oracleGetL1Fee : Option Nat) : Except String GasEstimate :=
  match estimateGas providerEstimate with
  | Except.error e => Except.error e
  | Except.ok gasLimit =>
    let gasPrice := jsOrNat feeData.gasPrice 0
    let maxFeePerGas := jsOrNat feeData.maxFeePerGas gasPrice
    let maxPriorityFeePerGas := jsOrNat feeData.maxPriorityFeePerGas 0
    let l2ExecutionFee := gasLimit * maxFeePerGas
    let l1DataFee :=
      if jsTruthyStr oracleAddress && jsTruthyStr txData
      then getL1DataFee oracleGetL1Fee else 0
    let totalFee := l2ExecutionFee + l1DataFee
    Except.ok
      { gasLimit := gasLimit
        gasPrice := gasPrice
        maxFeePerGas := maxFeePerGas
        maxPriorityFeePerGas := maxPriorityFeePerGas
        l1DataFee := l1DataFee
        l2ExecutionFee := l2ExecutionFee
        totalFee := totalFee }

/-- The result object built by the gas resource's getTotalFeeEstimate case. -/
structure TotalFeeEstimateResult where
  gasEstimate : Nat
  l2ExecutionFee : Nat
  l1DataFee : Nat
  totalFee : Nat
deriving DecidableEq

/-- The getTotalFeeEstimate case of the gas resource's execute dispatcher:
l2Fee = gasEstimate * gasPrice when feeData.gasPrice is truthy, else 0n;
l1Fee = the oracle getL1Fee result, left at 0n when the oracle call throws;
totalFee = l2Fee + l1Fee. -/
def gasGetTotalFeeEstimate (gasEstimate : Nat) (feeDataGasPrice : Option Nat)
    (oracleGetL1Fee : Option Nat) : TotalFeeEstimateResult :=
  let l2Fee :=
    match feeDataGasPrice with
    | some p => if p = 0 then 0 else gasEstimate * p
    | none => 0
  let l1Fee :=
    match oracleGetL1Fee with
    | some fee => fee
    | none => 0
  { gasEstimate := gasEstimate
    l2ExecutionFee := l2Fee
    l1DataFee := l1Fee
    totalFee := l2Fee + l1Fee }

/- ===== dispatcher provider-call counts (gas and analytics resources) ===== -/

/-- The operation values declared by the gas resource's description. -/
def gasOperationValues : List String :=
  ["calculateZKProofFee", "estimateGas", "getGasHistory", "getGasOracle",
   "getGasPrice", "getL1DataFee", "getL2ExecutionFee", "getMaxFeePerGas",
   "getMaxPriorityFee", "getTotalFeeEstimate"]

/-- Number of provider or contract calls performed by each case of the gas
resource's execute dispatcher (none for an unknown operation, which throws):
getGasPrice, getMaxFeePerGas, getMaxPriorityFee, getL2ExecutionFee and
calculateZKProofFee each call getFeeData once; getL1DataFee calls the oracle
once; estimateGas calls estimateGas and getFeeData; getTotalFeeEstimate calls
estimateGas, getFeeData and the oracle getL1Fee; getGasOracle performs the
three oracle reads l1BaseFee, overhead, scalar; getGasHistory calls
getBlockNumber once and then getBlock once per iteration of its
blockCount-step loop. -/
def gasProviderCallCount (operation : String) (blockCount : Nat) : Option Nat :=
  if operation = "getGasPrice" then some 1
  else if operation = "getMaxFeePerGas" then some 1
  else if operation = "getMaxPriorityFee" then some 1
  else if operation = "estimateGas" then some 2
  else if operation = "getL1DataFee" then some 1
  else if operation = "getL2ExecutionFee" then some 1
  else if operation = "getTotalFeeEstimate" then some 3
  else if operation = "getGasOracle" then some 3
  else if operation = "getGasHistory" then some (1 + blockCount)
  else if operation = "calculateZKProofFee" then some 1
  else none

/-- The operation values declared by the analytics resource's description. -/
def analyticsOperationValues : List String :=
  ["getGasStats", "getNetworkStats", "getTPS"]

/-- Number of provider calls performed by each case of the analytics
resource's execute dispatcher: getNetworkStats performs getBlockNumber,
getNetwork and getFeeData; getTPS performs getBlockNumber, two getBlock calls
for the start and end blocks, and, when both exist, getBlock once per block in
the window; getGasStats performs getBlockNumber and then getBlock once per
iteration of its blockCount-step loop. -/
def analyticsProviderCallCount (operation : String) (blockCount : Nat)
    (startAndEndBlocksExist : Bool) : Option Nat :=
  if operation = "getNetworkStats" then some 3
  else if operation = "getTPS" then
    some (3 + (if startAndEndBlocksExist then blockCount else 0))
  else if operation = "getGasStats" then some (1 + blockCount)
  else none

/- ===== Scroll.node.ts execute loop ===== -/

/-- One entry of the data returned by Scroll.execute: either a data item
produced by a resource execute, or the error item pushed by the catch branch,
which records the error message and the index of the input item it is paired
with. -/
inductive ExecItem (α : Type) where
  | data (v : α)
  | errorItem (message : String) (pairedItem : Nat)
deriving DecidableEq

/-- The item loop of Scroll.execute starting at item index i with k items
remaining: run the selected resource's execute for each item in order; on a
thrown error, either push one error item paired to the failing index and
continue (continueOnFail), or rethrow, abandoning the loop. -/
def scrollExecuteFrom {α : Type} (exec : Nat → Except String (List α))
    (continueOnFail : Bool) (i : Nat) : Nat → Except String (List (ExecItem α))
  | 0 => Except.ok []
  | k + 1 =>
    match exec i with
    | Except.ok items =>
      match scrollExecuteFrom exec continueOnFail (i + 1) k with
      | Except.ok rest => Except.ok (items.map ExecItem.data ++ rest)
      | Except.error e => Except.error e
    | Except.error e =>
      if continueOnFail then
        match scrollExecuteFrom exec continueOnFail (i + 1) k with
        | Except.ok rest => Except.ok (ExecItem.errorItem e i :: rest)
        | Except.error e2 => Except.error e2
      else Except.error e

/-- Scroll.execute over n input items: exec i is the outcome of the selected
resource's execute on item i (the items it returns, or the thrown error). -/
def scrollExecute {α : Type} (n : Nat) (exec : Nat → Except String (List α))
    (continueOnFail : Bool) : Except String (List (ExecItem α)) :=
  scrollExecuteFrom exec continueOnFail 0 n

/-- The per-item contribution to Scroll.execute's output when continueOnFail
is on: the resource's items on success, one paired error item on failure. -/
def scrollExecuteStep {α : Type} (exec : Nat → Except String (List α))
    (i : Nat) : List (ExecItem α) :=
  match exec i with
  | Except.ok items => items.map ExecItem.data
  | Except.error e => [ExecItem.errorItem e i]

/- ===================== theorems ===================== -/

/-- C2: getBatchStatus returns finalized exactly when batchIndex is at most
lastFinalizedIndex, committed exactly when lastFinalizedIndex < batchIndex and
batchIndex is at most lastCommittedIndex, pending otherwise; and it agrees
with the predicates isBatchFinalized and isBatchCommitted: the status is
finalized exactly when isBatchFinalized holds, and committed exactly when
isBatchCommitted holds but isBatchFinalized does not. -/
theorem getBatchStatus_spec (b f c : Int) :
    (getBatchStatus b f c = BatchStatus.finalized ↔ b ≤ f)
    ∧ (getBatchStatus b f c = BatchStatus.committed ↔ (f < b ∧ b ≤ c))
    ∧ (getBatchStatus b f c = BatchStatus.pending ↔ (f < b ∧ c < b))
    ∧ (getBatchStatus b f c = BatchStatus.finalized ↔ isBatchFinalized b f = true)
    ∧ (getBatchStatus b f c = BatchStatus.committed ↔
        (isBatchCommitted b c = true ∧ ¬ isBatchFinalized b f = true)) := by
  unfold getBatchStatus isBatchFinalized isBatchCommitted
  split_ifs with h1 h2 <;> simp_all

/-- C10: the declared status PROVED is never produced: getBatchStatus returns
one of pending, committed, finalized; the status assigned by
BatchClient.getBatchInfo is one of those same three; and parseRollupEvent
assigns only committed or finalized. -/
theorem batchStatus_proved_unreachable :
    (∀ b f c : Int, getBatchStatus b f c ≠ BatchStatus.proved)
    ∧ (∀ (fin : Bool) (commitment : String),
        getBatchInfoStatus fin commitment ≠ BatchStatus.proved)
    ∧ (∀ eventType : String,
        parseRollupEventStatus eventType ≠ BatchStatus.proved) := by
  refine ⟨fun b f c => ?_, fun fin commitment => ?_, fun eventType => ?_⟩
  · unfold getBatchStatus; split_ifs <;> simp
  · unfold getBatchInfoStatus; split_ifs <;> simp
  · unfold parseRollupEventStatus; split_ifs <;> simp

/-- C5: calculateBridgeFee equals floor(gasLimit * l1GasPrice * 120 / 100) for
deposits and floor(gasLimit * l1GasPrice * 150 / 100) for withdrawals, in
exact integer arithmetic, and the withdrawal fee is always at least the
deposit fee for the same gasLimit and l1GasPrice. -/
theorem calculateBridgeFee_spec (gasLimit l1GasPrice : Nat) :
    calculateBridgeFee gasLimit l1GasPrice true = gasLimit * l1GasPrice * 120 / 100
    ∧ calculateBridgeFee gasLimit l1GasPrice false = gasLimit * l1GasPrice * 150 / 100
    ∧ calculateBridgeFee gasLimit l1GasPrice true
        ≤ calculateBridgeFee gasLimit l1GasPrice false := by
  refine ⟨rfl, rfl, ?_⟩
  unfold calculateBridgeFee
  simp only [if_true, if_false, Bool.false_eq_true, ite_false, ite_true]
  exact Nat.div_le_div_right (Nat.mul_le_mul_left _ (by omega))

/-- C9: encodeDepositData and encodeWithdrawalData produce the same encoded
byte string on every (recipient, amount, gasLimit) triple. -/
theorem encodeDeposit_eq_encodeWithdrawal (recipient amount gasLimit : Nat) :
    encodeDepositData recipient amount gasLimit
      = encodeWithdrawalData recipient amount gasLimit := rfl

/-- C1: in the gas resource's getTotalFeeEstimate case, totalFee equals
l1DataFee + l2ExecutionFee where l2ExecutionFee is gasEstimate times the
reported gas price (0 when none is reported) and l1DataFee is the oracle's
getL1Fee result (0 when the oracle call fails); and calculateTotalFee in the
gas utilities satisfies the same composition totalFee = l2ExecutionFee +
l1DataFee on every transaction input on which it succeeds. -/
theorem calculateTotalFee_composition :
    (∀ (ge : Nat) (gp orc : Option Nat),
        (gasGetTotalFeeEstimate ge gp orc).totalFee
          = (gasGetTotalFeeEstimate ge gp orc).l1DataFee
            + (gasGetTotalFeeEstimate ge gp orc).l2ExecutionFee
        ∧ (gasGetTotalFeeEstimate ge gp orc).l2ExecutionFee
          = (match gp with | some p => ge * p | none => 0)
        ∧ (gasGetTotalFeeEstimate ge gp orc).l1DataFee
          = (match orc with | some fee => fee | none => 0))
    ∧ (∀ (raw : Option Nat) (fd : FeeData) (oa td : Option String)
        (orc : Option Nat) (r : GasEstimate),
        calculateTotalFee raw fd oa td orc = Except.ok r →
          r.totalFee = r.l2ExecutionFee + r.l1DataFee) := by
  constructor
  · intro ge gp orc
    refine ⟨?_, ?_, ?_⟩
    · cases gp <;> cases orc <;> simp [gasGetTotalFeeEstimate, Nat.add_comm]
    · cases gp with
      | none => simp [gasGetTotalFeeEstimate]
      | some p =>
        by_cases hp : p = 0 <;> simp [gasGetTotalFeeEstimate, hp]
    · cases orc <;> simp [gasGetTotalFeeEstimate]
  · intro raw fd oa td orc r h
    cases raw with
    | none => simp [calculateTotalFee, estimateGas] at h
    | some e =>
      simp [calculateTotalFee, estimateGas] at h
      subst h
      rfl

/-- Witness for C1: calculateTotalFee on a concrete input succeeds and its
result satisfies the composition. -/
theorem calculateTotalFee_composition_witness :
    calculateTotalFee (some 10) (FeeData.mk (some 2) none none) none none none
      = Except.ok (GasEstimate.mk 12 2 2 0 0 24 24)
    ∧ (GasEstimate.mk 12 2 2 0 0 24 24).totalFee
      = (GasEstimate.mk 12 2 2 0 0 24 24).l2ExecutionFee
        + (GasEstimate.mk 12 2 2 0 0 24 24).l1DataFee :=
  ⟨rfl,
   calculateTotalFee_composition.2 (some 10) (FeeData.mk (some 2) none none)
     none none none (GasEstimate.mk 12 2 2 0 0 24 24) rfl⟩

/-- C4 counterexample: the gas resource's getGasHistory case at its default
blockCount of 10 performs 11 provider calls, not between 1 and 3. -/
theorem gasHistory_callCount_counterexample :
    gasProviderCallCount "getGasHistory" 10 = some 11
    ∧ ¬ (1 ≤ 11 ∧ 11 ≤ 3) := by decide

/-- C4 amended: every gas resource operation other than getGasHistory performs
between 1 and 3 provider or contract calls; getGasHistory performs
1 + blockCount calls; in the analytics resource getNetworkStats performs 3
calls while getTPS and getGasStats also scale with blockCount, performing
3 + blockCount (when the boundary blocks exist) and 1 + blockCount calls. -/
theorem providerCallCount_amended :
    (∀ (op : String) (bc : Nat), op ∈ gasOperationValues → op ≠ "getGasHistory" →
      ∃ k, gasProviderCallCount op bc = some k ∧ 1 ≤ k ∧ k ≤ 3)
    ∧ (∀ bc : Nat, gasProviderCallCount "getGasHistory" bc = some (1 + bc))
    ∧ (∀ (bc : Nat) (ex : Bool),
        analyticsProviderCallCount "getNetworkStats" bc ex = some 3)
    ∧ (∀ (bc : Nat) (ex : Bool),
        analyticsProviderCallCount "getTPS" bc ex
          = some (3 + (if ex then bc else 0)))
    ∧ (∀ (bc : Nat) (ex : Bool),
        analyticsProviderCallCount "getGasStats" bc ex = some (1 + bc)) := by
  refine ⟨?_, fun bc => rfl, fun bc ex => rfl, fun bc ex => rfl, fun bc ex => rfl⟩
  intro op bc hmem hne
  simp only [gasOperationValues, List.mem_cons, List.not_mem_nil, or_false] at hmem
  rcases hmem with rfl | rfl | rfl | rfl | rfl | rfl | rfl | rfl | rfl | rfl
  · exact ⟨1, rfl, by omega⟩
  · exact ⟨2, rfl, by omega⟩
  · exact absurd rfl hne
  · exact ⟨3, rfl, by omega⟩
  · exact ⟨1, rfl, by omega⟩
  · exact ⟨1, rfl, by omega⟩
  · exact ⟨1, rfl, by omega⟩
  · exact ⟨1, rfl, by omega⟩
  · exact ⟨1, rfl, by omega⟩
  · exact ⟨3, rfl, by omega⟩

/-- Witness for the amended C4: a concrete non-looping gas operation performs
between 1 and 3 calls. -/
theorem providerCallCount_amended_witness :
    ∃ k, gasProviderCallCount "getGasPrice" 10 = some k ∧ 1 ≤ k ∧ k ≤ 3 :=
  providerCallCount_amended.1 "getGasPrice" 10 (by decide) (by decide)

/-- Helper for C7: whether the resource execute throws on item d. -/
def execFails {α : Type} (exec : Nat → Except String (List α)) (d : Nat) : Bool :=
  match exec d with
  | Except.error _ => true
  | Except.ok _ => false

/-- Helper for C7: peeling the first index off the per-item contributions. -/
theorem scrollExecuteStep_range_succ {α : Type} (exec : Nat → Except String (List α))
    (k i : Nat) :
    ((List.range (k + 1)).map (fun d => scrollExecuteStep exec (i + d))).flatten
      = scrollExecuteStep exec i
        ++ ((List.range k).map (fun d => scrollExecuteStep exec (i + 1 + d))).flatten := by
  rw [List.range_succ_eq_map, List.map_cons, List.map_map]
  simp only [List.flatten_cons, Nat.add_zero]
  congr 1
  refine congrArg List.flatten (List.map_congr_left fun d _ => ?_)
  simp only [Function.comp]
  congr 1
  omega

/-- Helper for C7: with continueOnFail on, the loop from index i over k items
returns, in order, each item's data items on success and a single paired error
item on failure. -/
theorem scrollExecuteFrom_cof_eq {α : Type} (exec : Nat → Except String (List α)) :
    ∀ (k i : Nat), scrollExecuteFrom exec true i k
      = Except.ok (((List.range k).map (fun d => scrollExecuteStep exec (i + d))).flatten) := by
  intro k
  induction k with
  | zero => intro i; simp [scrollExecuteFrom]
  | succ k ih =>
    intro i
    rw [scrollExecuteStep_range_succ]
    cases hexec : exec i with
    | ok items =>
      have hstep : scrollExecuteStep exec i = items.map ExecItem.data := by
        simp [scrollExecuteStep, hexec]
      simp only [scrollExecuteFrom, hexec, ih (i + 1), hstep]
    | error e =>
      have hstep : scrollExecuteStep exec i = [ExecItem.errorItem e i] := by
        simp [scrollExecuteStep, hexec]
      simp only [scrollExecuteFrom, hexec, ih (i + 1), hstep, if_true]
      rfl

/-- Helper for C7: with continueOnFail off, the first failing item's error is
returned by the loop. -/
theorem scrollExecuteFrom_error {α : Type} (exec : Nat → Except String (List α)) :
    ∀ (k i j : Nat) (e : String), j < k → exec (i + j) = Except.error e →
      (∀ d, d < j → ∃ r, exec (i + d) = Except.ok r) →
      scrollExecuteFrom exec false i k = Except.error e := by
  intro k
  induction k with
  | zero => intro i j e hj _ _; exact absurd hj (Nat.not_lt_zero j)
  | succ k ih =>
    intro i j e hj hfail hok
    cases j with
    | zero =>
      have hi : exec i = Except.error e := by simpa using hfail
      simp [scrollExecuteFrom, hi]
    | succ d =>
      obtain ⟨r, hr⟩ := hok 0 (Nat.succ_pos d)
      have hr' : exec i = Except.ok r := by simpa using hr
      have hfail' : exec (i + 1 + d) = Except.error e := by
        have : i + 1 + d = i + (d + 1) := by omega
        rw [this]; exact hfail
      have hok' : ∀ d2, d2 < d → ∃ r2, exec (i + 1 + d2) = Except.ok r2 := by
        intro d2 hd2
        have := hok (d2 + 1) (by omega)
        have heq : i + (d2 + 1) = i + 1 + d2 := by omega
        rwa [heq] at this
      have hrec := ih (i + 1) d e (by omega) hfail' hok'
      simp [scrollExecuteFrom, hr', hrec]

/-- C7: Scroll.execute processes items in order. With continueOnFail on, the
output is the in-order concatenation of each item's results, where a failing
item contributes exactly one error item paired to its index and later items
are still processed. With continueOnFail off, the first failing item's error
propagates out, and whenever any item fails the whole call throws, so no
results for the failing item or any later item are returned. -/
theorem scrollExecute_spec {α : Type} (n : Nat) (exec : Nat → Except String (List α)) :
    scrollExecute n exec true
      = Except.ok (((List.range n).map (scrollExecuteStep exec)).flatten)
    ∧ (∀ (j : Nat) (e : String), j < n → exec j = Except.error e →
        (∀ d, d < j → ∃ r, exec d = Except.ok r) →
        scrollExecute n exec false = Except.error e)
    ∧ (∀ (j : Nat) (e : String), j < n → exec j = Except.error e →
        ∃ e2, scrollExecute n exec false = Except.error e2) := by
  refine ⟨?_, ?_, ?_⟩
  · have h := scrollExecuteFrom_cof_eq exec n 0
    simpa [scrollExecute] using h
  · intro j e hj hfail hok
    have h := scrollExecuteFrom_error exec n 0 j e hj (by simpa using hfail)
      (fun d hd => by simpa using hok d hd)
    simpa [scrollExecute] using h
  · intro j e hj hfail
    have hP : execFails exec j = true := by simp [execFails, hfail]
    have hex : ∃ d, execFails exec d = true := ⟨j, hP⟩
    classical
    let j0 := Nat.find hex
    have hj0P : execFails exec j0 = true := Nat.find_spec hex
    obtain ⟨e0, he0⟩ : ∃ e0, exec j0 = Except.error e0 := by
      revert hj0P
      unfold execFails
      cases exec j0 with
      | ok r => simp
      | error e0 => exact fun _ => ⟨e0, rfl⟩
    have hj0n : j0 < n := lt_of_le_of_lt (Nat.find_min' hex hP) hj
    have hok0 : ∀ d, d < j0 → ∃ r, exec d = Except.ok r := by
      intro d hd
      have hnd : ¬ execFails exec d = true := Nat.find_min hex hd
      revert hnd
      unfold execFails
      cases exec d with
      | ok r => exact fun _ => ⟨r, rfl⟩
      | error e2 => simp
    have h := scrollExecuteFrom_error exec n 0 j0 e0 hj0n (by simpa using he0)
      (fun d hd => by simpa using hok0 d hd)
    exact ⟨e0, by simpa [scrollExecute] using h⟩

/-- Concrete resource execute outcomes for the C7 witness: item 0 throws,
every later item returns one data item. -/
def execSample : Nat → Except String (List Nat) :=
  fun i => if i = 0 then Except.error "boom" else Except.ok [i]

/-- Witness for C7 at a concrete two-item run: with continueOnFail on, one
paired error item is followed by item 1's data; with continueOnFail off, the
error propagates. -/
theorem scrollExecute_spec_witness :
    scrollExecute 2 execSample true
      = Except.ok [ExecItem.errorItem "boom" 0, ExecItem.data 1]
    ∧ scrollExecute 2 execSample false = Except.error "boom" :=
  ⟨by rw [(scrollExecute_spec 2 execSample).1]; rfl,
   (scrollExecute_spec 2 execSample).2.1 0 "boom" (by omega) rfl
     (fun d hd => absurd hd (Nat.not_lt_zero d))⟩

/- ===== ScrollTrigger (the Scroll Trigger node's poll function) ===== -/

/-- An ethers log entry as consumed by the trigger's poll branches. -/
structure EthLog where
  address : String
  topics : List String
  data : String
  blockNumber : Nat
  transactionHash : String
deriving DecidableEq

/-- A prefetched transaction of a block (getBlock with prefetch). -/
structure EthTx where
  hash : String
  txFrom : String
  txTo : Option String
  valueWei : Nat
deriving DecidableEq

/-- An ethers block as consumed by the trigger's poll branches. -/
structure EthBlock where
  number : Nat
  hash : String
  timestamp : Nat
  transactions : List String
  gasUsed : Nat
  gasLimit : Nat
  prefetchedTransactions : Option (List EthTx)
deriving DecidableEq

/-- An ethers transaction receipt as consumed by poll. -/
structure TxReceipt where
  blockNumber : Nat
  status : Nat
  gasUsed : Nat
deriving DecidableEq

/-- The provider responses observed during one poll invocation. The fallback
block number is the result of the extra getBlockNumber call a branch makes
when its lastBlock cursor is unset; blockNumber is the result of the branch's
main getBlockNumber call; logs is the getLogs response for the filter the
branch constructs; transactionCount is getTransactionCount(watchAddress). -/
structure ChainObs where
  fallbackBlockNumber : Nat
  blockNumber : Nat
  getBlock : Nat → Option EthBlock
  finalizedBlock : Option EthBlock
  receipt : Option TxReceipt
  transactionCount : Nat
  balanceWei : Nat
  logs : List EthLog

/-- The node parameters of the Scroll Trigger relevant to poll. The minimum
value threshold of largeTransaction is held in wei (the source compares
parseFloat(formatEther(tx.value)) against the minValue ETH number; the
comparison is modelled exactly in wei). -/
structure PollParams where
  triggerType : String
  blockInterval : Int
  transactionHash : String
  confirmations : Int
  tokenAddress : String
  tokenFilterBy : String
  tokenFromAddress : String
  tokenToAddress : String
  nftAddress : String
  contractAddress : String
  eventSignature : String
  watchAddress : String
  minValueWei : Nat
  largeTransactionAddress : String
  badgeContract : String
  badgeRecipient : String
deriving DecidableEq

/-- The cursor fields the trigger keeps in workflow static data. A value of 0
for lastBlock / lastFinalized / lastNonce models an unset field (the source
reads them with `(... as number) || 0` style fallbacks, and JavaScript treats
0 and undefined alike in those guards). -/
structure PollState where
  lastBlock : Nat
  lastFinalized : Nat
  lastNonce : Nat
  triggered : Bool
deriving DecidableEq

/-- One emitted workflow item, carrying the json payload fields the
corresponding poll branch builds (display-only re-formatting such as address
checksumming and ether formatting is elided). -/
inductive TriggerEvent where
  | newBlock (blockNumber : Nat) (blockHash : String) (timestamp : Nat)
      (transactionCount : Nat) (gasUsed gasLimit : Nat)
  | blockFinalized (blockNumber : Nat) (blockHash : String) (timestamp : Nat)
  | transactionConfirmed (transactionHash : String) (blockNumber : Nat)
      (status : Nat) (confirmations : Int) (gasUsed : Nat)
  | tokenTransfer (tokenAddress sender receiver : String) (value : Nat)
      (blockNumber : Nat) (transactionHash : String)
  | nftTransfer (nftAddress sender receiver : String) (tokenId : Nat)
      (blockNumber : Nat) (transactionHash : String)
  | contractEvent (contractAddress eventSignature : String)
      (topics : List String) (data : String) (blockNumber : Nat)
      (transactionHash : String)
  | addressActivity (address : String) (nonce previousNonce : Nat)
      (balanceWei : Nat)
  | bridgeEvent (kind : String) (data : String) (blockNumber : Nat)
      (transactionHash : String) (address : String)
  | largeTransaction (transactionHash sender : String)
      (receiver : Option String) (valueWei : Nat) (blockNumber : Nat)
  | canvasBadgeMinted (badgeContract recipient : String) (tokenId : Nat)
      (blockNumber : Nat) (transactionHash : String)
deriving DecidableEq

/-- Value of a hex character (0 for a non-hex character; the source only ever
applies this to hex strings). -/
def hexCharVal (c : Char) : Nat :=
  if 48 ≤ c.toNat ∧ c.toNat ≤ 57 then c.toNat - 48
  else if 97 ≤ c.toNat ∧ c.toNat ≤ 102 then c.toNat - 87
  else if 65 ≤ c.toNat ∧ c.toNat ≤ 70 then c.toNat - 55
  else 0

/-- BigInt(hexString): numeric value of a 0x-prefixed hex string. -/
def hexToNat (s : String) : Nat :=
  let t := if s.startsWith "0x" then s.drop 2 else s
  t.toList.foldl (fun acc c => acc * 16 + hexCharVal c) 0

/-- ethers.getAddress('0x' + topic.slice(26)): the 20-byte address held in a
32-byte topic (checksum re-capitalization, an external-library display
normalization, is elided). -/
def topicToAddress (topic : String) : String :=
  "0x" ++ topic.drop 26

/-- ethers.id(signature): the keccak-256 event topic of a signature, modelled
as an injective opaque tag (the hash itself is an external library
primitive). -/
def ethersId (signature : String) : String :=
  "keccak256:" ++ signature

/-- ethers.zeroPadValue(address, 32): left-pad a 0x-prefixed value to 32
bytes. -/
def zeroPadValue32 (address : String) : String :=
  let s := address.drop 2
  "0x" ++ String.mk (List.replicate (64 - s.length) '0') ++ s

/-- ethers.ZeroAddress. -/
def zeroAddress : String := "0x" ++ String.mk (List.replicate 40 '0')

/-- The topics filter built by the tokenTransfer branch. -/
def tokenTransferTopics (p : PollParams) : List (Option String) :=
  let transferTopic := ethersId "Transfer(address,address,uint256)"
  if p.tokenFilterBy = "from" then
    [some transferTopic, some (zeroPadValue32 p.tokenFromAddress)]
  else if p.tokenFilterBy = "to" then
    [some transferTopic, none, some (zeroPadValue32 p.tokenToAddress)]
  else [some transferTopic]

/-- The topic selected by the bridgeDeposit / bridgeWithdrawal branch. -/
def bridgeTopic (triggerType : String) : String :=
  if triggerType = "bridgeDeposit" then
    ethersId "DepositETH(address,address,uint256,bytes)"
  else ethersId "WithdrawETH(address,address,uint256,bytes)"

/-- The topics filter built by the canvasBadgeMinted branch (mints are
transfers from the zero address, optionally restricted to a recipient). -/
def canvasBadgeTopics (p : PollParams) : List (Option String) :=
  let base := [some (ethersId "Transfer(address,address,uint256)"),
               some (zeroPadValue32 zeroAddress)]
  if p.badgeRecipient ≠ "" then base ++ [some (zeroPadValue32 p.badgeRecipient)]
  else base

/-- The trigger type values declared in the Scroll Trigger's description. -/
def triggerTypeValues : List String :=
  ["newBlock", "blockFinalized", "transactionConfirmed", "tokenTransfer",
   "nftTransfer", "contractEvent", "addressActivity", "bridgeDeposit",
   "bridgeWithdrawal", "largeTransaction", "canvasBadgeMinted"]

/-- The newBlock case of ScrollTrigger.poll's switch. -/
def pollNewBlock (p : PollParams) (st : PollState) (obs : ChainObs) :
    List TriggerEvent × PollState :=
  let lastBlock := st.lastBlock
  let currentBlock := obs.blockNumber
  if lastBlock = 0 then ([], { st with lastBlock := currentBlock })
  else if (currentBlock : Int) ≥ (lastBlock : Int) + p.blockInterval then
    let events :=
      match obs.getBlock currentBlock with
      | some block =>
        [TriggerEvent.newBlock block.number block.hash block.timestamp
          block.transactions.length block.gasUsed block.gasLimit]
      | none => []
    (events, { st with lastBlock := currentBlock })
  else ([], st)

/-- The blockFinalized case of ScrollTrigger.poll's switch. -/
def pollBlockFinalized (st : PollState) (obs : ChainObs) :
    List TriggerEvent × PollState :=
  match obs.finalizedBlock with
  | some fb =>
    if fb.number > st.lastFinalized then
      ([TriggerEvent.blockFinalized fb.number fb.hash fb.timestamp],
       { st with lastFinalized := fb.number })
    else ([], st)
  | none => ([], st)

/-- The transactionConfirmed case of ScrollTrigger.poll's switch. -/
def pollTransactionConfirmed (p : PollParams) (st : PollState) (obs : ChainObs) :
    List TriggerEvent × PollState :=
  if st.triggered = false ∧ p.transactionHash ≠ "" then
    match obs.receipt with
    | some receipt =>
      let currentBlock := obs.blockNumber
      let confirmations : Int := (currentBlock : Int) - (receipt.blockNumber : Int)
      if confirmations ≥ p.confirmations then
        ([TriggerEvent.transactionConfirmed p.transactionHash
            receipt.blockNumber receipt.status confirmations receipt.gasUsed],
         { st with triggered := true })
      else ([], st)
    | none => ([], st)
  else ([], st)

/-- The tokenTransfer case of ScrollTrigger.poll's switch. -/
def pollTokenTransfer (p : PollParams) (st : PollState) (obs : ChainObs) :
    List TriggerEvent × PollState :=
  let lastBlock := if st.lastBlock = 0 then obs.fallbackBlockNumber else st.lastBlock
  let currentBlock := obs.blockNumber
  if currentBlock > lastBlock then
    let events := obs.logs.map (fun log =>
      TriggerEvent.tokenTransfer p.tokenAddress
        (topicToAddress (log.topics.getD 1 ""))
        (topicToAddress (log.topics.getD 2 ""))
        (hexToNat log.data) log.blockNumber log.transactionHash)
    (events, { st with lastBlock := currentBlock })
  else ([], st)

/-- The nftTransfer case of ScrollTrigger.poll's switch. -/
def pollNftTransfer (p : PollParams) (st : PollState) (obs : ChainObs) :
    List TriggerEvent × PollState :=
  let lastBlock := if st.lastBlock = 0 then obs.fallbackBlockNumber else st.lastBlock
  let currentBlock := obs.blockNumber
  if currentBlock > lastBlock then
    let events := obs.logs.map (fun log =>
      TriggerEvent.nftTransfer p.nftAddress
        (topicToAddress (log.topics.getD 1 ""))
        (topicToAddress (log.topics.getD 2 ""))
        (hexToNat (log.topics.getD 3 "")) log.blockNumber log.transactionHash)
    (events, { st with lastBlock := currentBlock })
  else ([], st)

/-- The contractEvent case of ScrollTrigger.poll's switch. -/
def pollContractEvent (p : PollParams) (st : PollState) (obs : ChainObs) :
    List TriggerEvent × PollState :=
  let lastBlock := if st.lastBlock = 0 then obs.fallbackBlockNumber else st.lastBlock
  let currentBlock := obs.blockNumber
  if currentBlock > lastBlock then
    let events := obs.logs.map (fun log =>
      TriggerEvent.contractEvent p.contractAddress p.eventSignature
        log.topics log.data log.blockNumber log.transactionHash)
    (events, { st with lastBlock := currentBlock })
  else ([], st)

/-- The addressActivity case of ScrollTrigger.poll's switch. -/
def pollAddressActivity (p : PollParams) (st : PollState) (obs : ChainObs) :
    List TriggerEvent × PollState :=
  let lastNonce := st.lastNonce
  let currentNonce := obs.transactionCount
  if currentNonce > lastNonce ∨ lastNonce = 0 then
    ([TriggerEvent.addressActivity p.watchAddress currentNonce lastNonce
        obs.balanceWei],
     { st with lastNonce := currentNonce })
  else ([], st)

/-- The largeTransaction case of ScrollTrigger.poll's switch: scan at most 5
blocks past the cursor for prefetched transactions above the threshold,
optionally filtered by address. -/
def pollLargeTransaction (p : PollParams) (st : PollState) (obs : ChainObs) :
    List TriggerEvent × PollState :=
  let lastBlock := if st.lastBlock = 0 then obs.fallbackBlockNumber else st.lastBlock
  let currentBlock := obs.blockNumber
  if currentBlock > lastBlock then
    let upper := min currentBlock (lastBlock + 5)
    let blockNums := (List.range (upper - lastBlock)).map (fun i => lastBlock + 1 + i)
    let events := blockNums.foldl (fun acc blockNum =>
      match obs.getBlock blockNum with
      | some block =>
        match block.prefetchedTransactions with
        | some txs =>
          acc ++ txs.filterMap (fun tx =>
            if p.minValueWei ≤ tx.valueWei then
              if (p.largeTransactionAddress == "")
                  || (tx.txFrom.toLower == p.largeTransactionAddress.toLower)
                  || ((tx.txTo.map
                        (fun t => t.toLower == p.largeTransactionAddress.toLower)).getD false)
              then some (TriggerEvent.largeTransaction tx.hash tx.txFrom
                  tx.txTo tx.valueWei blockNum)
              else none
            else none)
        | none => acc
      | none => acc) []
    (events, { st with lastBlock := currentBlock })
  else ([], st)

/-- The shared bridgeDeposit / bridgeWithdrawal case of ScrollTrigger.poll's
switch. -/
def pollBridge (p : PollParams) (st : PollState) (obs : ChainObs) :
    List TriggerEvent × PollState :=
  let lastBlock := if st.lastBlock = 0 then obs.fallbackBlockNumber else st.lastBlock
  let currentBlock := obs.blockNumber
  if currentBlock > lastBlock then
    let events := obs.logs.map (fun log =>
      TriggerEvent.bridgeEvent p.triggerType log.data log.blockNumber
        log.transactionHash log.address)
    (events, { st with lastBlock := currentBlock })
  else ([], st)

/-- The canvasBadgeMinted case of ScrollTrigger.poll's switch. -/
def pollCanvasBadgeMinted (st : PollState) (obs : ChainObs) :
    List TriggerEvent × PollState :=
  let lastBlock := if st.lastBlock = 0 then obs.fallbackBlockNumber else st.lastBlock
  let currentBlock := obs.blockNumber
  if currentBlock > lastBlock then
    let events := obs.logs.map (fun log =>
      TriggerEvent.canvasBadgeMinted log.address
        (topicToAddress (log.topics.getD 2 ""))
        (hexToNat (log.topics.getD 3 "")) log.blockNumber log.transactionHash)
    (events, { st with lastBlock := currentBlock })
  else ([], st)

/-- The switch body of ScrollTrigger.poll: the events collected by the branch
for the selected trigger type, and the updated workflow static data (the
switch has no default case, so an unknown trigger type collects nothing and
leaves the static data untouched). -/
def pollEvents (p : PollParams) (st : PollState) (obs : ChainObs) :
    List TriggerEvent × PollState :=
  if p.triggerType = "newBlock" then pollNewBlock p st obs
  else if p.triggerType = "blockFinalized" then pollBlockFinalized st obs
  else if p.triggerType = "transactionConfirmed" then pollTransactionConfirmed p st obs
  else if p.triggerType = "tokenTransfer" then pollTokenTransfer p st obs
  else if p.triggerType = "nftTransfer" then pollNftTransfer p st obs
  else if p.triggerType = "contractEvent" then pollContractEvent p st obs
  else if p.triggerType = "addressActivity" then pollAddressActivity p st obs
  else if p.triggerType = "largeTransaction" then pollLargeTransaction p st obs
  else if p.triggerType = "bridgeDeposit" ∨ p.triggerType = "bridgeWithdrawal" then
    pollBridge p st obs
  else if p.triggerType = "canvasBadgeMinted" then pollCanvasBadgeMinted st obs
  else ([], st)

/-- ScrollTrigger.poll: run the switch, then return null when no events were
collected and the one-element item array otherwise, together with the
persisted workflow static data. -/
def poll (p : PollParams) (st : PollState) (obs : ChainObs) :
    Option (List TriggerEvent) × PollState :=
  let r := pollEvents p st obs
  (if r.1.isEmpty then none else some r.1, r.2)

/-- A sequence of poll invocations threading the persisted static data. -/
def pollRun (p : PollParams) (st : PollState) (obsList : List ChainObs) : PollState :=
  obsList.foldl (fun s obs => (poll p s obs).2) st

/-- The claim's notion of observable chain-state change relative to the
persisted cursors: the chain head (or finalized head) advanced past the
stored block cursor, the watched address's nonce increased, or new logs exist
in the queried window. -/
def chainStateChanged (st : PollState) (obs : ChainObs) : Bool :=
  decide (st.lastBlock < obs.blockNumber)
  || decide (st.lastFinalized < (obs.finalizedBlock.map EthBlock.number).getD 0)
  || decide (st.lastNonce < obs.transactionCount)
  || !obs.logs.isEmpty

/-- The trigger types whose branch queries a log window. -/
def logWindowTriggerTypes : List String :=
  ["tokenTransfer", "nftTransfer", "contractEvent", "bridgeDeposit",
   "bridgeWithdrawal", "canvasBadgeMinted"]

/-- The exact necessary condition under which each poll branch can emit:
cursor-relative change for the block/log/nonce branches (with the stored
cursor falling back to a fresh head reading when unset), the first-poll
exception of addressActivity (an unset nonce cursor emits regardless), and
the confirmation threshold for transactionConfirmed. -/
def emitCondition (p : PollParams) (st : PollState) (obs : ChainObs) : Bool :=
  if p.triggerType = "newBlock" then
    decide (st.lastBlock ≠ 0)
    && decide ((obs.blockNumber : Int) ≥ (st.lastBlock : Int) + p.blockInterval)
  else if p.triggerType = "blockFinalized" then
    match obs.finalizedBlock with
    | some fb => decide (st.lastFinalized < fb.number)
    | none => false
  else if p.triggerType = "transactionConfirmed" then
    (!st.triggered) && (!(p.transactionHash == ""))
    && (match obs.receipt with
        | some r => decide ((obs.blockNumber : Int) - (r.blockNumber : Int) ≥ p.confirmations)
        | none => false)
  else if p.triggerType = "addressActivity" then
    decide (st.lastNonce < obs.transactionCount) || decide (st.lastNonce = 0)
  else if p.triggerType = "largeTransaction" then
    decide ((if st.lastBlock = 0 then obs.fallbackBlockNumber else st.lastBlock) < obs.blockNumber)
  else if p.triggerType ∈ logWindowTriggerTypes then
    decide ((if st.lastBlock = 0 then obs.fallbackBlockNumber else st.lastBlock) < obs.blockNumber)
    && !obs.logs.isEmpty
  else false

/-- A prefetched sample transaction used in concrete poll runs. -/
def sampleTx : EthTx :=
  { hash := "0xt1", txFrom := "0xaa", txTo := some "0xbb",
    valueWei := 2000000000000000000 }

/-- A sample block at height 2 used in concrete poll runs. -/
def sampleBlock : EthBlock :=
  { number := 2, hash := "0xb2", timestamp := 1000, transactions := ["0xt1"],
    gasUsed := 21000, gasLimit := 30000000,
    prefetchedTransactions := some [sampleTx] }

/-- A sample log in the window (1, 2] used in concrete poll runs. -/
def sampleLog : EthLog :=
  { address := "0xc1", topics := ["0xe0", "0xa1", "0xa2", "0x05"],
    data := "0x01", blockNumber := 2, transactionHash := "0xt1" }

/-- Sample provider observations: head at block 2, a finalized block, a
confirmed receipt, one log, nonce 1. -/
def sampleObs : ChainObs :=
  { fallbackBlockNumber := 1, blockNumber := 2,
    getBlock := fun n => if n = 2 then some sampleBlock else none,
    finalizedBlock := some sampleBlock,
    receipt := some { blockNumber := 1, status := 1, gasUsed := 21000 },
    transactionCount := 1, balanceWei := 0, logs := [sampleLog] }

/-- Sample persisted cursors: block cursor 1, the rest unset. -/
def sampleState : PollState :=
  { lastBlock := 1, lastFinalized := 0, lastNonce := 0, triggered := false }

/-- Sample trigger parameters for a given trigger type. -/
def mkSampleParams (t : String) : PollParams :=
  { triggerType := t, blockInterval := 1, transactionHash := "0xt1",
    confirmations := 1, tokenAddress := "0xtok", tokenFilterBy := "any",
    tokenFromAddress := "", tokenToAddress := "", nftAddress := "0xnft",
    contractAddress := "0xc1",
    eventSignature := "Transfer(address,address,uint256)",
    watchAddress := "0xw", minValueWei := 1000000000000000000,
    largeTransactionAddress := "", badgeContract := "", badgeRecipient := "" }

/-- Trigger parameters of the C3 counterexample: an addressActivity trigger
with an unset nonce cursor. -/
def cexParams : PollParams :=
  { triggerType := "addressActivity", blockInterval := 1,
    transactionHash := "", confirmations := 1, tokenAddress := "",
    tokenFilterBy := "any", tokenFromAddress := "", tokenToAddress := "",
    nftAddress := "", contractAddress := "", eventSignature := "",
    watchAddress := "0xw", minValueWei := 0, largeTransactionAddress := "",
    badgeContract := "", badgeRecipient := "" }

/-- Persisted cursors of the C3 counterexample. -/
def cexState : PollState :=
  { lastBlock := 5, lastFinalized := 0, lastNonce := 0, triggered := false }

/-- Provider observations of the C3 counterexample: head still at the stored
cursor, no finalized block, no receipt, nonce still 0, no logs — nothing
changed relative to the persisted cursors. -/
def cexObs : ChainObs :=
  { fallbackBlockNumber := 5, blockNumber := 5, getBlock := fun _ => none,
    finalizedBlock := none, receipt := none, transactionCount := 0,
    balanceWei := 0, logs := [] }

/-- C3 counterexample: on the first addressActivity poll (stored nonce cursor
0) with the watched address's nonce still 0, the chain state did not change
relative to any persisted cursor — head not advanced, nonce not increased, no
logs — yet poll emits an item and returns non-null, refuting the claim as
stated. -/
theorem poll_changed_counterexample :
    (poll cexParams cexState cexObs).1.isSome = true
    ∧ chainStateChanged cexState cexObs = false := by
  exact ⟨rfl, rfl⟩

/-- Helper for the amended C3: the newBlock branch emits only when the block
cursor is set and the head advanced by at least blockInterval. -/
theorem pollNewBlock_emits (p : PollParams) (st : PollState) (obs : ChainObs)
    (h : (pollNewBlock p st obs).1 ≠ []) :
    (decide (st.lastBlock ≠ 0)
      && decide ((obs.blockNumber : Int) ≥ (st.lastBlock : Int) + p.blockInterval)) = true := by
  simp only [pollNewBlock] at h
  split_ifs at h with h1 h2
  · exact absurd rfl h
  · simp [h1, h2]
  · exact absurd rfl h

/-- Helper for the amended C3: the blockFinalized branch emits only when the
finalized head advanced past the cursor. -/
theorem pollBlockFinalized_emits (st : PollState) (obs : ChainObs)
    (h : (pollBlockFinalized st obs).1 ≠ []) :
    (match obs.finalizedBlock with
     | some fb => decide (st.lastFinalized < fb.number)
     | none => false) = true := by
  simp only [pollBlockFinalized] at h
  cases hfb : obs.finalizedBlock with
  | none => rw [hfb] at h; exact absurd rfl h
  | some fb =>
    rw [hfb] at h
    by_cases hgt : fb.number > st.lastFinalized
    · simpa using hgt
    · exact absurd (by simp [hgt]) h

/-- Helper for the amended C3: the transactionConfirmed branch emits only when
the one-shot flag is unset, a hash is configured, and the receipt has enough
confirmations. -/
theorem pollTransactionConfirmed_emits (p : PollParams) (st : PollState)
    (obs : ChainObs) (h : (pollTransactionConfirmed p st obs).1 ≠ []) :
    ((!st.triggered) && (!(p.transactionHash == ""))
      && (match obs.receipt with
          | some r => decide ((obs.blockNumber : Int) - (r.blockNumber : Int) ≥ p.confirmations)
          | none => false)) = true := by
  simp only [pollTransactionConfirmed] at h
  split_ifs at h with hguard
  · cases hrc : obs.receipt with
    | none => rw [hrc] at h; exact absurd rfl h
    | some rc =>
      rw [hrc] at h
      by_cases hge : (obs.blockNumber : Int) - (rc.blockNumber : Int) ≥ p.confirmations
      · simp [hguard.1, hguard.2, hge]
      · exact absurd (by simp [hge]) h
  · exact absurd rfl h

/-- Helper for the amended C3: the tokenTransfer branch emits only when the
head advanced past the (possibly freshly seeded) cursor and logs exist. -/
theorem pollTokenTransfer_emits (p : PollParams) (st : PollState) (obs : ChainObs)
    (h : (pollTokenTransfer p st obs).1 ≠ []) :
    (decide ((if st.lastBlock = 0 then obs.fallbackBlockNumber else st.lastBlock) < obs.blockNumber)
      && !obs.logs.isEmpty) = true := by
  simp only [pollTokenTransfer] at h
  by_cases hgt : obs.blockNumber > (if st.lastBlock = 0 then obs.fallbackBlockNumber else st.lastBlock)
  · rw [if_pos hgt] at h
    cases hlg : obs.logs with
    | nil => rw [hlg] at h; exact absurd rfl h
    | cons a l => simp [hgt, hlg]
  · rw [if_neg hgt] at h
    exact absurd rfl h

/-- Helper for the amended C3: likewise for the nftTransfer branch. -/
theorem pollNftTransfer_emits (p : PollParams) (st : PollState) (obs : ChainObs)
    (h : (pollNftTransfer p st obs).1 ≠ []) :
    (decide ((if st.lastBlock = 0 then obs.fallbackBlockNumber else st.lastBlock) < obs.blockNumber)
      && !obs.logs.isEmpty) = true := by
  simp only [pollNftTransfer] at h
  by_cases hgt : obs.blockNumber > (if st.lastBlock = 0 then obs.fallbackBlockNumber else st.lastBlock)
  · rw [if_pos hgt] at h
    cases hlg : obs.logs with
    | nil => rw [hlg] at h; exact absurd rfl h
    | cons a l => simp [hgt, hlg]
  · rw [if_neg hgt] at h
    exact absurd rfl h

/-- Helper for the amended C3: likewise for the contractEvent branch. -/
theorem pollContractEvent_emits (p : PollParams) (st : PollState) (obs : ChainObs)
    (h : (pollContractEvent p st obs).1 ≠ []) :
    (decide ((if st.lastBlock = 0 then obs.fallbackBlockNumber else st.lastBlock) < obs.blockNumber)
      && !obs.logs.isEmpty) = true := by
  simp only [pollContractEvent] at h
  by_cases hgt : obs.blockNumber > (if st.lastBlock = 0 then obs.fallbackBlockNumber else st.lastBlock)
  · rw [if_pos hgt] at h
    cases hlg : obs.logs with
    | nil => rw [hlg] at h; exact absurd rfl h
    | cons a l => simp [hgt, hlg]
  · rw [if_neg hgt] at h
    exact absurd rfl h

/-- Helper for the amended C3: likewise for the shared bridge branch. -/
theorem pollBridge_emits (p : PollParams) (st : PollState) (obs : ChainObs)
    (h : (pollBridge p st obs).1 ≠ []) :
    (decide ((if st.lastBlock = 0 then obs.fallbackBlockNumber else st.lastBlock) < obs.blockNumber)
      && !obs.logs.isEmpty) = true := by
  simp only [pollBridge] at h
  by_cases hgt : obs.blockNumber > (if st.lastBlock = 0 then obs.fallbackBlockNumber else st.lastBlock)
  · rw [if_pos hgt] at h
    cases hlg : obs.logs with
    | nil => rw [hlg] at h; exact absurd rfl h
    | cons a l => simp [hgt, hlg]
  · rw [if_neg hgt] at h
    exact absurd rfl h

/-- Helper for the amended C3: likewise for the canvasBadgeMinted branch. -/
theorem pollCanvasBadgeMinted_emits (st : PollState) (obs : ChainObs)
    (h : (pollCanvasBadgeMinted st obs).1 ≠ []) :
    (decide ((if st.lastBlock = 0 then obs.fallbackBlockNumber else st.lastBlock) < obs.blockNumber)
      && !obs.logs.isEmpty) = true := by
  simp only [pollCanvasBadgeMinted] at h
  by_cases hgt : obs.blockNumber > (if st.lastBlock = 0 then obs.fallbackBlockNumber else st.lastBlock)
  · rw [if_pos hgt] at h
    cases hlg : obs.logs with
    | nil => rw [hlg] at h; exact absurd rfl h
    | cons a l => simp [hgt, hlg]
  · rw [if_neg hgt] at h
    exact absurd rfl h

/-- Helper for the amended C3: the addressActivity branch emits only when the
nonce increased or the nonce cursor is unset. -/
theorem pollAddressActivity_emits (p : PollParams) (st : PollState) (obs : ChainObs)
    (h : (pollAddressActivity p st obs).1 ≠ []) :
    (decide (st.lastNonce < obs.transactionCount) || decide (st.lastNonce = 0)) = true := by
  simp only [pollAddressActivity] at h
  split_ifs at h with hcond
  · rcases hcond with hlt | h0
    · simp [hlt]
    · simp [h0]
  · exact absurd rfl h

/-- Helper for the amended C3: the largeTransaction branch emits only when the
head advanced past the (possibly freshly seeded) cursor. -/
theorem pollLargeTransaction_emits (p : PollParams) (st : PollState) (obs : ChainObs)
    (h : (pollLargeTransaction p st obs).1 ≠ []) :
    decide ((if st.lastBlock = 0 then obs.fallbackBlockNumber else st.lastBlock) < obs.blockNumber) = true := by
  simp only [pollLargeTransaction] at h
  by_cases hgt : obs.blockNumber > (if st.lastBlock = 0 then obs.fallbackBlockNumber else st.lastBlock)
  · simp [hgt]
  · rw [if_neg hgt] at h
    exact absurd rfl h

/-- C3 amended: a poll invocation returns items only under the branch's
cursor-relative change condition — head advanced past the stored block cursor
by at least blockInterval (newBlock), finalized head advanced (blockFinalized),
head advanced past the (possibly freshly seeded) block cursor with new logs in
the window for the log-querying kinds, head advanced for largeTransaction, and
nonce increased for addressActivity — except that the first addressActivity
poll (nonce cursor unset) emits regardless, and transactionConfirmed emits
when the watched transaction has reached the required confirmations while the
one-shot flag is unset. -/
theorem poll_emits_only_on_condition (p : PollParams) (st : PollState)
    (obs : ChainObs) (h : (poll p st obs).1 ≠ none) :
    emitCondition p st obs = true := by
  have h' : (pollEvents p st obs).1 ≠ [] := by
    intro hemp
    apply h
    simp [poll, hemp]
  clear h
  unfold pollEvents at h'
  unfold emitCondition
  by_cases h1 : p.triggerType = "newBlock"
  · rw [if_pos h1] at h' ⊢
    exact pollNewBlock_emits p st obs h'
  rw [if_neg h1] at h' ⊢
  by_cases h2 : p.triggerType = "blockFinalized"
  · rw [if_pos h2] at h' ⊢
    exact pollBlockFinalized_emits st obs h'
  rw [if_neg h2] at h' ⊢
  by_cases h3 : p.triggerType = "transactionConfirmed"
  · rw [if_pos h3] at h' ⊢
    exact pollTransactionConfirmed_emits p st obs h'
  rw [if_neg h3] at h' ⊢
  by_cases h4 : p.triggerType = "tokenTransfer"
  · rw [if_pos h4] at h'
    rw [h4]
    rw [if_neg (by decide), if_neg (by decide), if_pos (by decide)]
    exact pollTokenTransfer_emits p st obs h'
  rw [if_neg h4] at h'
  by_cases h5 : p.triggerType = "nftTransfer"
  · rw [if_pos h5] at h'
    rw [h5]
    rw [if_neg (by decide), if_neg (by decide), if_pos (by decide)]
    exact pollNftTransfer_emits p st obs h'
  rw [if_neg h5] at h'
  by_cases h6 : p.triggerType = "contractEvent"
  · rw [if_pos h6] at h'
    rw [h6]
    rw [if_neg (by decide), if_neg (by decide), if_pos (by decide)]
    exact pollContractEvent_emits p st obs h'
  rw [if_neg h6] at h'
  by_cases h7 : p.triggerType = "addressActivity"
  · rw [if_pos h7] at h'
    rw [h7]
    rw [if_pos (by decide)]
    exact pollAddressActivity_emits p st obs h'
  rw [if_neg h7] at h' ⊢
  by_cases h8 : p.triggerType = "largeTransaction"
  · rw [if_pos h8] at h'
    rw [h8]
    rw [if_pos (by decide)]
    exact pollLargeTransaction_emits p st obs h'
  rw [if_neg h8] at h' ⊢
  by_cases h9 : p.triggerType = "bridgeDeposit" ∨ p.triggerType = "bridgeWithdrawal"
  · rw [if_pos h9] at h'
    have hmem : p.triggerType ∈ logWindowTriggerTypes := by
      rcases h9 with h9 | h9 <;> simp [h9, logWindowTriggerTypes]
    rw [if_pos hmem]
    exact pollBridge_emits p st obs h'
  rw [if_neg h9] at h'
  by_cases h10 : p.triggerType = "canvasBadgeMinted"
  · rw [if_pos h10] at h'
    rw [h10]
    rw [if_pos (by decide)]
    exact pollCanvasBadgeMinted_emits st obs h'
  rw [if_neg h10] at h'
  exact absurd rfl h'

/-- Witness for the amended C3: a concrete blockFinalized poll that emits,
and its emit condition holds. -/
theorem poll_emits_only_on_condition_witness :
    (poll (mkSampleParams "blockFinalized") sampleState sampleObs).1 ≠ none
    ∧ emitCondition (mkSampleParams "blockFinalized") sampleState sampleObs = true :=
  ⟨by decide,
   poll_emits_only_on_condition (mkSampleParams "blockFinalized") sampleState
     sampleObs (by decide)⟩

/-- C6: the Scroll Trigger declares exactly the 11 listed trigger type values;
for a trigger type outside that list poll emits nothing, returns null and
leaves the static data untouched; and each of the 11 values has a handling
branch in poll's switch, witnessed by a concrete input on which that branch
emits. -/
theorem triggerTypes_spec :
    triggerTypeValues
      = ["newBlock", "blockFinalized", "transactionConfirmed", "tokenTransfer",
         "nftTransfer", "contractEvent", "addressActivity", "bridgeDeposit",
         "bridgeWithdrawal", "largeTransaction", "canvasBadgeMinted"]
    ∧ triggerTypeValues.length = 11
    ∧ (∀ (p : PollParams) (st : PollState) (obs : ChainObs),
        p.triggerType ∉ triggerTypeValues → poll p st obs = (none, st))
    ∧ (∀ t ∈ triggerTypeValues,
        (poll (mkSampleParams t) sampleState sampleObs).1.isSome = true) := by
  refine ⟨rfl, rfl, ?_, ?_⟩
  · intro p st obs hmem
    simp only [triggerTypeValues, List.mem_cons, List.not_mem_nil, or_false,
      not_or] at hmem
    obtain ⟨h1, h2, h3, h4, h5, h6, h7, h8, h9, h10, h11⟩ := hmem
    simp [poll, pollEvents, h1, h2, h3, h4, h5, h6, h7, h8, h9, h10, h11]
  · intro t ht
    simp only [triggerTypeValues, List.mem_cons, List.not_mem_nil,
      or_false] at ht
    rcases ht with rfl | rfl | rfl | rfl | rfl | rfl | rfl | rfl | rfl | rfl | rfl <;>
      decide

/-- Witness for C6: a concrete unknown trigger type yields (null, unchanged
state), and a concrete known one emits. -/
theorem triggerTypes_spec_witness :
    poll (mkSampleParams "bogusTrigger") sampleState sampleObs = (none, sampleState)
    ∧ (poll (mkSampleParams "newBlock") sampleState sampleObs).1.isSome = true :=
  ⟨triggerTypes_spec.2.2.1 (mkSampleParams "bogusTrigger") sampleState sampleObs
     (by decide),
   triggerTypes_spec.2.2.2 "newBlock" (by decide)⟩

/-- Helper for C8: the newBlock branch never decreases a cursor when the
block interval is at least 1. -/
theorem pollNewBlock_mono (p : PollParams) (st : PollState) (obs : ChainObs)
    (h : 1 ≤ p.blockInterval) :
    st.lastBlock ≤ (pollNewBlock p st obs).2.lastBlock
    ∧ st.lastFinalized ≤ (pollNewBlock p st obs).2.lastFinalized
    ∧ st.lastNonce ≤ (pollNewBlock p st obs).2.lastNonce := by
  simp only [pollNewBlock]
  split_ifs with h1 h2 <;> simp_all <;> omega

/-- Helper for C8: the blockFinalized branch never decreases a cursor. -/
theorem pollBlockFinalized_mono (st : PollState) (obs : ChainObs) :
    st.lastBlock ≤ (pollBlockFinalized st obs).2.lastBlock
    ∧ st.lastFinalized ≤ (pollBlockFinalized st obs).2.lastFinalized
    ∧ st.lastNonce ≤ (pollBlockFinalized st obs).2.lastNonce := by
  simp only [pollBlockFinalized]
  cases hfb : obs.finalizedBlock with
  | none => simp
  | some fb =>
    by_cases hgt : fb.number > st.lastFinalized <;> simp [hgt] <;> omega

/-- Helper for C8: the transactionConfirmed branch never touches the block,
finalized or nonce cursors. -/
theorem pollTransactionConfirmed_mono (p : PollParams) (st : PollState)
    (obs : ChainObs) :
    st.lastBlock ≤ (pollTransactionConfirmed p st obs).2.lastBlock
    ∧ st.lastFinalized ≤ (pollTransactionConfirmed p st obs).2.lastFinalized
    ∧ st.lastNonce ≤ (pollTransactionConfirmed p st obs).2.lastNonce := by
  simp only [pollTransactionConfirmed]
  split_ifs with hguard
  · cases hrc : obs.receipt with
    | none => simp
    | some rc =>
      by_cases hge : (obs.blockNumber : Int) - (rc.blockNumber : Int) ≥ p.confirmations <;>
        simp [hge]
  · simp

/-- Helper for C8: the tokenTransfer branch never decreases a cursor. -/
theorem pollTokenTransfer_mono (p : PollParams) (st : PollState) (obs : ChainObs) :
    st.lastBlock ≤ (pollTokenTransfer p st obs).2.lastBlock
    ∧ st.lastFinalized ≤ (pollTokenTransfer p st obs).2.lastFinalized
    ∧ st.lastNonce ≤ (pollTokenTransfer p st obs).2.lastNonce := by
  simp only [pollTokenTransfer]
  split_ifs <;> simp_all <;> omega

/-- Helper for C8: the nftTransfer branch never decreases a cursor. -/
theorem pollNftTransfer_mono (p : PollParams) (st : PollState) (obs : ChainObs) :
    st.lastBlock ≤ (pollNftTransfer p st obs).2.lastBlock
    ∧ st.lastFinalized ≤ (pollNftTransfer p st obs).2.lastFinalized
    ∧ st.lastNonce ≤ (pollNftTransfer p st obs).2.lastNonce := by
  simp only [pollNftTransfer]
  split_ifs <;> simp_all <;> omega

/-- Helper for C8: the contractEvent branch never decreases a cursor. -/
theorem pollContractEvent_mono (p : PollParams) (st : PollState) (obs : ChainObs) :
    st.lastBlock ≤ (pollContractEvent p st obs).2.lastBlock
    ∧ st.lastFinalized ≤ (pollContractEvent p st obs).2.lastFinalized
    ∧ st.lastNonce ≤ (pollContractEvent p st obs).2.lastNonce := by
  simp only [pollContractEvent]
  split_ifs <;> simp_all <;> omega

/-- Helper for C8: the addressActivity branch never decreases a cursor. -/
theorem pollAddressActivity_mono (p : PollParams) (st : PollState) (obs : ChainObs) :
    st.lastBlock ≤ (pollAddressActivity p st obs).2.lastBlock
    ∧ st.lastFinalized ≤ (pollAddressActivity p st obs).2.lastFinalized
    ∧ st.lastNonce ≤ (pollAddressActivity p st obs).2.lastNonce := by
  simp only [pollAddressActivity]
  split_ifs with hcond <;> simp_all <;> omega

/-- Helper for C8: the largeTransaction branch never decreases a cursor. -/
theorem pollLargeTransaction_mono (p : PollParams) (st : PollState) (obs : ChainObs) :
    st.lastBlock ≤ (pollLargeTransaction p st obs).2.lastBlock
    ∧ st.lastFinalized ≤ (pollLargeTransaction p st obs).2.lastFinalized
    ∧ st.lastNonce ≤ (pollLargeTransaction p st obs).2.lastNonce := by
  simp only [pollLargeTransaction]
  split_ifs <;> simp_all <;> omega

/-- Helper for C8: the bridge branch never decreases a cursor. -/
theorem pollBridge_mono (p : PollParams) (st : PollState) (obs : ChainObs) :
    st.lastBlock ≤ (pollBridge p st obs).2.lastBlock
    ∧ st.lastFinalized ≤ (pollBridge p st obs).2.lastFinalized
    ∧ st.lastNonce ≤ (pollBridge p st obs).2.lastNonce := by
  simp only [pollBridge]
  split_ifs <;> simp_all <;> omega

/-- Helper for C8: the canvasBadgeMinted branch never decreases a cursor. -/
theorem pollCanvasBadgeMinted_mono (st : PollState) (obs : ChainObs) :
    st.lastBlock ≤ (pollCanvasBadgeMinted st obs).2.lastBlock
    ∧ st.lastFinalized ≤ (pollCanvasBadgeMinted st obs).2.lastFinalized
    ∧ st.lastNonce ≤ (pollCanvasBadgeMinted st obs).2.lastNonce := by
  simp only [pollCanvasBadgeMinted]
  split_ifs <;> simp_all <;> omega

/-- Helper for C8: one poll invocation never decreases any persisted cursor,
given a block interval of at least 1. -/
theorem poll_cursor_step_mono (p : PollParams) (st : PollState) (obs : ChainObs)
    (h : 1 ≤ p.blockInterval) :
    st.lastBlock ≤ (poll p st obs).2.lastBlock
    ∧ st.lastFinalized ≤ (poll p st obs).2.lastFinalized
    ∧ st.lastNonce ≤ (poll p st obs).2.lastNonce := by
  show st.lastBlock ≤ (pollEvents p st obs).2.lastBlock
    ∧ st.lastFinalized ≤ (pollEvents p st obs).2.lastFinalized
    ∧ st.lastNonce ≤ (pollEvents p st obs).2.lastNonce
  unfold pollEvents
  by_cases h1 : p.triggerType = "newBlock"
  · rw [if_pos h1]; exact pollNewBlock_mono p st obs h
  rw [if_neg h1]
  by_cases h2 : p.triggerType = "blockFinalized"
  · rw [if_pos h2]; exact pollBlockFinalized_mono st obs
  rw [if_neg h2]
  by_cases h3 : p.triggerType = "transactionConfirmed"
  · rw [if_pos h3]; exact pollTransactionConfirmed_mono p st obs
  rw [if_neg h3]
  by_cases h4 : p.triggerType = "tokenTransfer"
  · rw [if_pos h4]; exact pollTokenTransfer_mono p st obs
  rw [if_neg h4]
  by_cases h5 : p.triggerType = "nftTransfer"
  · rw [if_pos h5]; exact pollNftTransfer_mono p st obs
  rw [if_neg h5]
  by_cases h6 : p.triggerType = "contractEvent"
  · rw [if_pos h6]; exact pollContractEvent_mono p st obs
  rw [if_neg h6]
  by_cases h7 : p.triggerType = "addressActivity"
  · rw [if_pos h7]; exact pollAddressActivity_mono p st obs
  rw [if_neg h7]
  by_cases h8 : p.triggerType = "largeTransaction"
  · rw [if_pos h8]; exact pollLargeTransaction_mono p st obs
  rw [if_neg h8]
  by_cases h9 : p.triggerType = "bridgeDeposit" ∨ p.triggerType = "bridgeWithdrawal"
  · rw [if_pos h9]; exact pollBridge_mono p st obs
  rw [if_neg h9]
  by_cases h10 : p.triggerType = "canvasBadgeMinted"
  · rw [if_pos h10]; exact pollCanvasBadgeMinted_mono st obs
  rw [if_neg h10]
  exact ⟨le_refl _, le_refl _, le_refl _⟩

/-- C8: with a blockInterval of at least 1, every cursor the trigger persists
in workflow static data (lastBlock, lastFinalized, lastNonce) is
non-decreasing across any sequence of poll invocations, whatever block
numbers, finalized blocks, nonces and logs the provider returns. -/
theorem poll_cursors_monotone (p : PollParams) (st : PollState)
    (obsList : List ChainObs) (h : 1 ≤ p.blockInterval) :
    st.lastBlock ≤ (pollRun p st obsList).lastBlock
    ∧ st.lastFinalized ≤ (pollRun p st obsList).lastFinalized
    ∧ st.lastNonce ≤ (pollRun p st obsList).lastNonce := by
  induction obsList generalizing st with
  | nil => simp [pollRun]
  | cons obs rest ih =>
    have hstep := poll_cursor_step_mono p st obs h
    have hrest := ih ((poll p st obs).2)
    simp only [pollRun, List.foldl_cons] at hrest ⊢
    exact ⟨le_trans hstep.1 hrest.1, le_trans hstep.2.1 hrest.2.1,
      le_trans hstep.2.2 hrest.2.2⟩

/-- Witness for C8: a concrete one-poll run with blockInterval 1 keeps all
three cursors non-decreasing. -/
theorem poll_cursors_monotone_witness :
    sampleState.lastBlock
      ≤ (pollRun (mkSampleParams "newBlock") sampleState [sampleObs]).lastBlock
    ∧ sampleState.lastFinalized
      ≤ (pollRun (mkSampleParams "newBlock") sampleState [sampleObs]).lastFinalized
    ∧ sampleState.lastNonce
      ≤ (pollRun (mkSampleParams "newBlock") sampleState [sampleObs]).lastNonce :=
  poll_cursors_monotone (mkSampleParams "newBlock") sampleState [sampleObs]
    (by decide)
